import Mathlib

/-!
Verification of the `clipper` backend (`backend.js`): a shallow embedding of
the catalog aggregation, viewer-count parsing, clipping job pipeline, stall
sweep, disk-pressure sweep, and snapshot persistence logic, together with
theorems settling the specification claims about them.

Conventions:
* JavaScript strings are Lean `String`s; character-level operations are
  implemented structurally on `List Char` so that the kernel can evaluate
  them.
* JavaScript numbers are modelled as `Int` (all values the claims touch are
  integral); exact decimal values parsed by `parseFloat` are carried as a
  scaled pair `(mantissa, scale)` meaning `mantissa / 10 ^ scale`.
* A JavaScript `NaN` result is modelled as `none` of an `Option`.
* `Array.prototype.sort` (stable in Node's V8) is modelled by the stable
  `List.insertionSort`; a comparator `cmp` returning a number corresponds to
  the relation `fun a b => cmp a b ≤ 0` (per ECMA SortCompare, a `NaN`
  comparator result is treated as `+0`, see `kickCmp`).
-/

namespace Clipper

/-! ## JavaScript string primitives -/

/-- `text.toLowerCase()`, character by character. -/
def jsToLowerChars (l : List Char) : List Char :=
  l.map Char.toLower

/-- `text.replace(/,/g, '')`: remove every comma. -/
def jsStripCommaChars (l : List Char) : List Char :=
  l.filter (fun c => !(c == ','))

/-- `text.trim()`: drop whitespace from both ends only. -/
def jsTrimChars (l : List Char) : List Char :=
  ((l.dropWhile Char.isWhitespace).reverse.dropWhile Char.isWhitespace).reverse

/-- `text.replace(c, '')` for a single-character pattern: JavaScript
`String.replace` with a string pattern removes only the FIRST occurrence. -/
def removeFirstChar : List Char → Char → List Char
  | [], _ => []
  | x :: xs, c => if x == c then xs else x :: removeFirstChar xs c

/-- Longest leading run of decimal digits: returns (digits, rest). -/
def takeDigits : List Char → List Char × List Char
  | [] => ([], [])
  | c :: cs =>
    if c.isDigit then
      let p := takeDigits cs
      (c :: p.1, p.2)
    else ([], c :: cs)

/-- Numeric value of a digit run (most significant first). -/
def digitsVal (l : List Char) : Nat :=
  l.foldl (fun n c => 10 * n + (c.toNat - 48)) 0

/-- Optional leading sign of a JavaScript numeric literal. -/
def scanSign : List Char → Int × List Char
  | '-' :: rest => (-1, rest)
  | '+' :: rest => (1, rest)
  | l => (1, l)

/-- `parseFloat(text)` on the decimal fragment grammar `[+-]? digits
['.' digits]` (exponents never occur in viewer-count strings and are not
modelled).  The parse stops at the first character that cannot extend the
number, exactly as `parseFloat` does; `none` models a `NaN` result.  A
successful parse `(m, k)` denotes the exact value `m / 10 ^ k`. -/
def jsParseFloatDec (l : List Char) : Option (Int × Nat) :=
  let s := scanSign l
  let ip := takeDigits s.2
  match ip.2 with
  | '.' :: rest =>
    let fp := takeDigits rest
    if ip.1.isEmpty && fp.1.isEmpty then none
    else some (s.1 * ((digitsVal ip.1 : Int) * 10 ^ fp.1.length + digitsVal fp.1), fp.1.length)
  | _ => if ip.1.isEmpty then none else some (s.1 * digitsVal ip.1, 0)

/-- `parseInt(text, 10)`: optional sign then leading digits; `none` models
`NaN`. -/
def jsParseInt10 (l : List Char) : Option Int :=
  let s := scanSign l
  let d := takeDigits s.2
  if d.1.isEmpty then none else some (s.1 * digitsVal d.1)

/-- `Math.floor((m / 10 ^ k) * mult)` computed exactly: floor division of
`m * mult` by `10 ^ k` (Math.floor rounds toward negative infinity, which is
`Int.fdiv`). -/
def jsFloorScaled (m : Int) (k : Nat) (mult : Int) : Int :=
  Int.fdiv (m * mult) (10 ^ k)

/-! ## Viewer-count parser (`parseViewerCount`, backend.js:162-179) -/

/-- The normalization pipeline `text.toLowerCase().replace(/,/g, '').trim()`
(backend.js:166). -/
def viewerTextNormalize (text : String) : List Char :=
  jsTrimChars (jsStripCommaChars (jsToLowerChars text.toList))

/-- `parseViewerCount` (backend.js:162-179).  `none` models a `NaN` return
value: when the text contains `k` or `m` but the remainder does not parse as
a number, `Math.floor(parseFloat(..) * mult)` is `NaN`, and the function
returns it (the `try`/`catch` does not intercept `NaN`).  The `k`/`m`
branches fire on a `k`/`m` ANYWHERE in the text (`text.includes`), and
only the first occurrence is removed before `parseFloat`. -/
def parseViewerCount (text : String) : Option Int :=
  if text = "" then some 0
  else
    let t := viewerTextNormalize text
    if t.contains 'k' then
      match jsParseFloatDec (removeFirstChar t 'k') with
      | some md => some (jsFloorScaled md.1 md.2 1000)
      | none => none
    else if t.contains 'm' then
      match jsParseFloatDec (removeFirstChar t 'm') with
      | some md => some (jsFloorScaled md.1 md.2 1000000)
      | none => none
    else some ((jsParseInt10 t).getD 0)

/-- Modelled from the spec: the viewer-count algorithm as the specification
words it — "strip commas and whitespace, lowercase, then if the suffix is
`k` multiply by 1 000, if `m` by 1 000 000, else parse as integer; any parse
failure yields 0."  The multiplier applies only to a trailing `k`/`m`, and
every failure path produces `0`, never `NaN`. -/
def parseViewerCountSpec (text : String) : Option Int :=
  let t := viewerTextNormalize text
  if t.getLast? = some 'k' then
    match jsParseFloatDec t.dropLast with
    | some md => some (jsFloorScaled md.1 md.2 1000)
    | none => some 0
  else if t.getLast? = some 'm' then
    match jsParseFloatDec t.dropLast with
    | some md => some (jsFloorScaled md.1 md.2 1000000)
    | none => some 0
  else some ((jsParseInt10 t).getD 0)

/-- Claim C8 as stated: the five reference vectors hold AND the parser
follows the suffix-based, failure-yields-0 algorithm (i.e. agrees with the
spec-worded algorithm everywhere). -/
def claimC8 : Prop :=
  parseViewerCount "1,234" = some 1234 ∧
  parseViewerCount "1.2k" = some 1200 ∧
  parseViewerCount "3m" = some 3000000 ∧
  parseViewerCount "" = some 0 ∧
  parseViewerCount "abc" = some 0 ∧
  ∀ t : String, parseViewerCount t = parseViewerCountSpec t

/-! ## Jobs (`activeJobs` entries) -/

/-- One `activeJobs` entry.  `status` is the literal string the code stores
(`"initializing"`, `"capturing"`, `"captured"`, `"processing"`,
`"completed"`, `"uploading"`, `"uploaded"`, `"error"`); `startTime` is the
`Date.now()` millisecond stamp set at creation (jobs carry no other
timestamp); `outputFile` is the capture buffer path; `error` the failure
reason. -/
structure CJob where
  id : String
  status : String
  progress : Int
  startTime : Int
  outputFile : String
  error : Option String
deriving DecidableEq

/-! ## Clip extraction (`createClip`, backend.js:1284-1436) -/

/-- The ffmpeg argument vector built by `createClip` (backend.js:1323-1337). -/
def clipFfmpegArgs (startTime duration : Int) (inputFile outputFile : String) : List String :=
  ["-hide_banner", "-loglevel", "info",
   "-ss", toString startTime,
   "-i", inputFile,
   "-t", toString duration,
   "-c:v", "libx264", "-preset", "medium", "-crf", "22",
   "-c:a", "aac", "-b:a", "128k",
   "-movflags", "+faststart", "-y", outputFile]

/-- `createClip(clipId, startTime, duration)` up to the point where the
transcoder is spawned (backend.js:1284-1339): job lookup, captured-status
check, then the three range validations, in source order.  `Except.ok args`
means validation passed and ffmpeg is spawned with `args`; `Except.error`
is the thrown message (surfaced as a rejection / HTTP 4xx). -/
def createClip (maxClipDuration : Int) (job : Option CJob) (startTime duration : Int) :
    Except String (List String) :=
  match job with
  | none => Except.error "Clip job not found"
  | some j =>
    if j.status ≠ "captured" then
      Except.error "Segment is not captured yet"
    else if startTime < 0 then
      Except.error "Start time cannot be negative"
    else if duration ≤ 0 then
      Except.error "Duration must be positive"
    else if startTime + duration > maxClipDuration then
      Except.error "Clip exceeds maximum duration"
    else
      Except.ok (clipFfmpegArgs startTime duration j.outputFile ("clips/" ++ j.id ++ ".mp4"))

/-- Claim C5 as stated: on a captured job, validation rejects exactly when
`start < 0` or `duration ≤ 0` or `start + duration > max`, and every pair
satisfying all three conditions proceeds to the transcoder. -/
def claimC5 : Prop :=
  ∀ (maxClipDuration startTime duration : Int) (j : CJob),
    j.status = "captured" →
    ((createClip maxClipDuration (some j) startTime duration).isOk ↔
      (0 ≤ startTime ∧ 0 < duration ∧ startTime + duration ≤ maxClipDuration))

/-! ## Preview frames (`generatePreviewFrames`, backend.js:1472-1543) -/

/-- The integer denominator `Math.floor(config.maxClipDuration / numFrames)`
of the fps sampling filter (backend.js:1501); for positive integers this is
truncating division. -/
def previewFpsDenom (maxClipDuration numFrames : Nat) : Nat :=
  maxClipDuration / numFrames

/-- The ffmpeg argument vector built by `generatePreviewFrames`
(backend.js:1497-1505); index 6 is the `-vf` sampling filter value. -/
def previewFfmpegArgs (videoFile outputPattern : String) (maxClipDuration numFrames : Nat) :
    List String :=
  ["-hide_banner", "-loglevel", "error",
   "-i", videoFile,
   "-vf", "fps=1/" ++ toString (previewFpsDenom maxClipDuration numFrames),
   "-q:v", "3", "-y", outputPattern]

/-! ## Capture request (`POST /api/capture`, backend.js:1785-1850, and
`captureStreamSegment`, backend.js:1059-1213) -/

/-- JavaScript `v || dflt` on an optional number: `undefined` and `0` are
falsy and select the default; any other integer passes through. -/
def jsOrInt (v : Option Int) (dflt : Int) : Int :=
  match v with
  | none => dflt
  | some x => if x = 0 then dflt else x

/-- `Math.min(maxDuration || config.maxClipDuration, config.maxClipDuration)`
(backend.js:1798-1801): the effective capture duration, with no further
validation of the request's `maxDuration` field. -/
def captureClipDuration (maxDuration : Option Int) (maxClipDuration : Int) : Int :=
  min (jsOrInt maxDuration maxClipDuration) maxClipDuration

/-- The ffmpeg argument vector of `captureStreamSegment`
(backend.js:1136-1144); index 6 is the value of the `-t` capture-duration
argument, `maxDuration.toString()`. -/
def captureFfmpegArgs (streamUrl outputFile : String) (maxDuration : Int) : List String :=
  ["-hide_banner", "-loglevel", "info",
   "-i", streamUrl,
   "-t", toString maxDuration,
   "-c", "copy", "-y", outputFile]

/-! ## Stall sweep (backend.js:2676-2707) -/

/-- The statuses the stalled-jobs cron treats as active (backend.js:2684).
Note `"captured"` is absent. -/
def stalledActiveStatuses : List String :=
  ["initializing", "capturing", "processing", "uploading"]

/-- One iteration of the stalled-jobs loop body on a single job
(backend.js:2682-2700): jobs in an active status whose (truthy) `startTime`
is more than 30 minutes before `now` are forced to
`error("Job stalled and timed out")`; all other jobs are untouched. -/
def stalledJobCheck (now : Int) (j : CJob) : CJob :=
  if stalledActiveStatuses.contains j.status then
    if j.startTime ≠ 0 ∧ now - j.startTime > 30 * 60 * 1000 then
      { j with status := "error", error := some "Job stalled and timed out" }
    else j
  else j

/-- One tick of the stalled-jobs cron over the whole registry. -/
def stalledSweep (now : Int) (jobs : List CJob) : List CJob :=
  jobs.map (stalledJobCheck now)

/-- Claim C4 as stated: EVERY job in a non-terminal status (anything other
than `"uploaded"`, `"completed"`, `"error"`) aged past 30 minutes is forced
to `"error"` by one sweep tick. -/
def claimC4 : Prop :=
  ∀ (now : Int) (j : CJob),
    j.status ≠ "uploaded" → j.status ≠ "completed" → j.status ≠ "error" →
    j.startTime ≠ 0 → now - j.startTime > 30 * 60 * 1000 →
    (stalledJobCheck now j).status = "error"

/-! ## Job state machine (claim C1)

Creation sites and every `job.status` assignment in `backend.js`.  Note that
`POST /api/capture` (backend.js:1804-1814) and the `start_capture` socket
handler (backend.js:2189-2205) mint one clip id and store a job in
`"initializing"`, while `captureStreamSegment` (backend.js:1062-1073) mints
a SECOND, distinct clip id and stores its own job directly in
`"capturing"`; the string `"resolving"` appears nowhere in the code. -/

/-- A job's first observed status: `"initializing"` (capture endpoints) or
`"capturing"` (`captureStreamSegment` creates its job in that state). -/
def codeInitialStatus (s : String) : Prop :=
  s = "initializing" ∨ s = "capturing"

/-- Status transitions the code performs on an existing job, one constructor
per assignment site (sequential flows; each site checks or establishes the
source status shown). -/
inductive codeStep : String → String → Prop
  /-- ffmpeg exit 0 in `captureStreamSegment` (backend.js:1181). -/
  | captureDone : codeStep "capturing" "captured"
  /-- `captureStreamSegment` catch block (backend.js:1204-1209). -/
  | captureFail : codeStep "capturing" "error"
  /-- `createClip` after validation (backend.js:1313) and the `create_clip`
  socket handler (backend.js:2285), both gated on `"captured"`. -/
  | clipStart : codeStep "captured" "processing"
  /-- `createClip` catch on a validation throw (backend.js:1427-1432). -/
  | clipInvalid : codeStep "captured" "error"
  /-- clip ffmpeg exit 0, thumbnail settled (backend.js:1385,1402). -/
  | clipDone : codeStep "processing" "completed"
  /-- `createClip` catch when entered at `"processing"` (socket flow,
  backend.js:1295-1296 with 1429) or the stall sweep (backend.js:2690). -/
  | clipFail : codeStep "processing" "error"
  /-- `uploadClip` after its status check (backend.js:1562) and the
  `upload_clip` socket handler (backend.js:2407), gated on `"completed"`. -/
  | uploadStart : codeStep "completed" "uploading"
  /-- upload host success (backend.js:1594). -/
  | uploadDone : codeStep "uploading" "uploaded"
  /-- `uploadClip` catch (backend.js:1610-1615). -/
  | uploadFail : codeStep "uploading" "error"
  /-- stall sweep on an `"initializing"` job (backend.js:2684-2692). -/
  | stallInit : codeStep "initializing" "error"

/-- A sequence of statuses observable for one job: starts at a creation
status and each consecutive pair is a code transition. -/
def codeTrace (tr : List String) : Prop :=
  (∀ s, tr.head? = some s → codeInitialStatus s) ∧ tr.Chain' codeStep

/-- The §4.8 specification transition graph, as the claim states it:
the spine `initializing → resolving → capturing → captured → processing →
completed → uploading → uploaded` plus an `error` edge from every
non-terminal state. -/
inductive specStep : String → String → Prop
  | toResolving : specStep "initializing" "resolving"
  | toCapturing : specStep "resolving" "capturing"
  | toCaptured : specStep "capturing" "captured"
  | toProcessing : specStep "captured" "processing"
  | toCompleted : specStep "processing" "completed"
  | toUploading : specStep "completed" "uploading"
  | toUploaded : specStep "uploading" "uploaded"
  | toError (s : String)
      (h : s = "initializing" ∨ s = "resolving" ∨ s = "capturing" ∨
           s = "captured" ∨ s = "processing" ∨ s = "uploading") :
      specStep s "error"

/-- Claim C1 as stated: every observed status sequence is a path in the
§4.8 graph, and in particular a job that reaches `"capturing"` has
previously been in `"resolving"`. -/
def claimC1 : Prop :=
  ∀ tr : List String, codeTrace tr →
    tr.Chain' specStep ∧ ("capturing" ∈ tr → "resolving" ∈ tr)

/-! ## Catalog snapshot persistence (claim C6)

After each per-platform fetch the snapshot is saved with a single
`fs.writeJsonSync(dataFile, ...)` call directly on the canonical path
(kick: backend.js:413, twitch: backend.js:780, youtube: backend.js:580);
there is no temporary file and no rename. -/

/-- Contents a concurrent reader of the target path can observe during a
single non-atomic `writeJsonSync` (truncate, then write the serialized JSON
front to back): the old contents (before the write starts) or any prefix of
the new contents. -/
def writeJsonSyncObservable (oldContent newContent : String) : List String :=
  oldContent ::
    (List.range (newContent.toList.length + 1)).map
      (fun k => String.mk (newContent.toList.take k))

/-- Observable contents of the kick data file during the save at
backend.js:413. -/
def kickSnapshotObservable (oldContent newContent : String) : List String :=
  writeJsonSyncObservable oldContent newContent

/-- Observable contents of the twitch data file during the save at
backend.js:780. -/
def twitchSnapshotObservable (oldContent newContent : String) : List String :=
  writeJsonSyncObservable oldContent newContent

/-- Claim C6 as stated: the snapshot write is atomic — a reader only ever
observes the full old snapshot or the full new one. -/
def claimC6 : Prop :=
  ∀ (oldContent newContent obs : String),
    (obs ∈ kickSnapshotObservable oldContent newContent →
      obs = oldContent ∨ obs = newContent) ∧
    (obs ∈ twitchSnapshotObservable oldContent newContent →
      obs = oldContent ∨ obs = newContent)

/-! ## Last-broadcast text parser (`parseLastBroadcastTime`, backend.js:182-219)

Returns seconds-ago; `none` models the `Infinity` result.  The regex
`/(\d+)\s+(second|minute|hour|day|week|month)s?\s+ago/` is implemented as a
structural scanner over the lowercased text (match at the first position
where the whole pattern fits, digits greedy).  The date-string branch
(backend.js:207-212) consults the wall clock (`new Date()`); it is not
modelled — no claim depends on it — and falls through to `Infinity` here. -/

/-- Seconds per unit word, in the regex's alternation order
(backend.js:187-194). -/
def unitSecondsTable : List (List Char × Nat) :=
  [("second".toList, 1), ("minute".toList, 60), ("hour".toList, 3600),
   ("day".toList, 86400), ("week".toList, 604800), ("month".toList, 2592000)]

/-- Strip an exact leading pattern, or fail. -/
def dropLeading : List Char → List Char → Option (List Char)
  | [], rest => some rest
  | _ :: _, [] => none
  | p :: ps, c :: cs => if p == c then dropLeading ps cs else none

/-- First unit word matching at the head of the text. -/
def matchUnitWord : List (List Char × Nat) → List Char → Option (Nat × List Char)
  | [], _ => none
  | (pat, secs) :: rest, l =>
    match dropLeading pat l with
    | some l2 => some (secs, l2)
    | none => matchUnitWord rest l

/-- Match `\s+ago` at the head of the text (no trailing boundary, exactly
as in the regex). -/
def matchAgoTail (l : List Char) : Bool :=
  let w := l.takeWhile Char.isWhitespace
  let r := l.dropWhile Char.isWhitespace
  if w.isEmpty then false else (dropLeading "ago".toList r).isSome

/-- Match the whole pattern anchored at the current position: digits, then
`\s+`, a unit word, an optional `s`, then `\s+ago`.  Yields
`value * unitSeconds`. -/
def plbtTryAt (l : List Char) : Option Nat :=
  let d := takeDigits l
  if d.1.isEmpty then none
  else if (d.2.takeWhile Char.isWhitespace).isEmpty then none
  else
    match matchUnitWord unitSecondsTable (d.2.dropWhile Char.isWhitespace) with
    | none => none
    | some (secs, rest) =>
      let tail := match rest with
        | 's' :: rs => matchAgoTail rs
        | _ => matchAgoTail rest
      if tail then some (digitsVal d.1 * secs) else none

/-- Scan every start position, leftmost match first (regex search). -/
def plbtScan : List Char → Option Nat
  | [] => none
  | c :: cs =>
    match plbtTryAt (c :: cs) with
    | some v => some v
    | none => plbtScan cs

/-- `parseLastBroadcastTime` (backend.js:182-219); `none` is `Infinity`. -/
def parseLastBroadcastTime (text : String) : Option Nat :=
  if text = "" then none
  else
    let lower := jsToLowerChars text.toList
    if lower = "not available".toList then none
    else plbtScan lower

/-! ## Streamer records and catalog sorts -/

/-- A normalized streamer record as stored in the per-platform data files.
Fields not consulted by any comparator or claim (avatar, title, urls) are
omitted; `viewer_count` is total (`0` when the scrape found none), matching
`parseViewerCount`'s integer results; `last_stream_time` is the twitch
offline timestamp in epoch milliseconds, `none` when absent. -/
structure StreamerRec where
  platform : String
  platform_id : String
  username : String
  status : String
  is_live : Bool
  viewer_count : Int
  last_broadcast : String
  last_stream_time : Option Int
deriving DecidableEq

/-- The kick comparator (backend.js:399-410): live first by viewer count
descending, otherwise by parsed last-broadcast seconds ascending.  The
`Infinity` cases of `parseLastBroadcastTime` give the comparator value sign
of `±Infinity`; `Infinity - Infinity` is `NaN`, which ECMA SortCompare
treats as `+0`. -/
def kickCmp (a b : StreamerRec) : Int :=
  if a.status = "live" ∧ b.status = "live" then b.viewer_count - a.viewer_count
  else if a.status = "live" then -1
  else if b.status = "live" then 1
  else
    match parseLastBroadcastTime a.last_broadcast, parseLastBroadcastTime b.last_broadcast with
    | some x, some y => (x : Int) - (y : Int)
    | some _, none => -1
    | none, some _ => 1
    | none, none => 0

/-- `a` sorts no later than `b` under the kick comparator. -/
def kickLe (a b : StreamerRec) : Prop := kickCmp a b ≤ 0

instance : DecidableRel kickLe :=
  fun a b => inferInstanceAs (Decidable (kickCmp a b ≤ 0))

/-- `results.sort(comparator)` in `fetchKickStreamers` (backend.js:399);
Node's sort is stable, modelled by the stable `insertionSort`. -/
def kickSortStreamers (l : List StreamerRec) : List StreamerRec :=
  List.insertionSort kickLe l

/-- The live-catalog comparator (backend.js:1042-1046): viewer count
descending, nothing else (`a.viewer_count || 0` only maps a missing count
to `0`, which the total `viewer_count` field already encodes). -/
def liveCmp (a b : StreamerRec) : Int := b.viewer_count - a.viewer_count

/-- `a` sorts no later than `b` under the live-catalog comparator. -/
def liveLe (a b : StreamerRec) : Prop := liveCmp a b ≤ 0

instance : DecidableRel liveLe :=
  fun a b => inferInstanceAs (Decidable (liveCmp a b ≤ 0))

/-- Sort by viewer count descending (backend.js:571 and backend.js:1042). -/
def sortByViewersDesc (l : List StreamerRec) : List StreamerRec :=
  List.insertionSort liveLe l

/-- The parti comparator key (backend.js:919-923): viewer count when live,
`-1` otherwise. -/
def partiCount (r : StreamerRec) : Int :=
  if r.is_live then r.viewer_count else -1

/-- `a` sorts no later than `b` under the parti comparator. -/
def partiLe (a b : StreamerRec) : Prop := partiCount b - partiCount a ≤ 0

instance : DecidableRel partiLe :=
  fun a b => inferInstanceAs (Decidable (partiCount b - partiCount a ≤ 0))

/-- The twitch offline comparator (backend.js:767-771): missing
`last_stream_time` sorts last, otherwise newest first.  (This comparator is
inconsistent when both sides are missing — it returns `1` both ways — so no
sortedness theorem is stated about it.) -/
def twitchOfflineLe (a b : StreamerRec) : Prop :=
  (match a.last_stream_time, b.last_stream_time with
   | none, _ => (1 : Int)
   | some _, none => -1
   | some x, some y => y - x) ≤ 0

instance : DecidableRel twitchOfflineLe :=
  fun a b =>
    inferInstanceAs (Decidable ((match a.last_stream_time, b.last_stream_time with
      | none, _ => (1 : Int)
      | some _, none => -1
      | some x, some y => y - x) ≤ 0))

/-- `getAllLiveStreamers` (backend.js:1013-1047): gather the live subsets of
the four persisted data files (a missing file contributes nothing) and sort
by viewer count descending. -/
structure YTData where
  live_streams : List StreamerRec
  offline_streams : List StreamerRec
deriving DecidableEq

/-- The twitch data-file shape. -/
structure TwData where
  live_streamers : List StreamerRec
  offline_streamers : List StreamerRec
deriving DecidableEq

/-- `getAllLiveStreamers` (backend.js:1013-1047). -/
def getAllLiveStreamers (kickData : Option (List StreamerRec)) (youtubeData : Option YTData)
    (twitchData : Option TwData) (partiData : Option (List StreamerRec)) : List StreamerRec :=
  let allLive :=
    ((kickData.getD []).filter (fun s => s.status == "live")) ++
    (youtubeData.getD ⟨[], []⟩).live_streams ++
    (twitchData.getD ⟨[], []⟩).live_streamers ++
    ((partiData.getD []).filter (fun s => s.is_live || s.status == "live"))
  sortByViewersDesc allLive

/-- The four-key sort key of claim C2 (live rank, viewer count,
last-broadcast value, platform, platform_id); two records with distinct
identity always have distinct keys. -/
def fourKey (r : StreamerRec) : Nat × Int × Option Nat × String × String :=
  (if r.status = "live" then 0 else 1, r.viewer_count,
   parseLastBroadcastTime r.last_broadcast, r.platform, r.platform_id)

/-- Claim C2 as stated (order-independence form): on records with pairwise
distinct four-key sort keys, the published order — both a platform file's
sort and the live-catalog sort — does not depend on the input order, so
swapping two input records never changes the output. -/
def claimC2 : Prop :=
  ∀ (l l2 : List StreamerRec), l.Perm l2 →
    l.Pairwise (fun a b => fourKey a ≠ fourKey b) →
    kickSortStreamers l = kickSortStreamers l2 ∧
    sortByViewersDesc l = sortByViewersDesc l2

/-! ## The whole-catalog refresh (`fetchAllStreamers`, backend.js:940-1010) -/

/-- Result of the platform-specific network / scraping work, abstracted:
either the processed list of records, or a thrown error. -/
inductive FetchOutcome (α : Type) where
  | ok (data : α)
  | failure (msg : String)

/-- `fetchKickStreamers` (backend.js:340-422): on success, sort and return
the records; the `catch` at backend.js:418-421 absorbs EVERY error and
returns `[]` — the async function never rejects. -/
def fetchKickStreamers (net : FetchOutcome (List StreamerRec)) : List StreamerRec :=
  match net with
  | .ok results => kickSortStreamers results
  | .failure _ => []

/-- `fetchYoutubeStreamers` (backend.js:427-589): live streams sorted by
viewer count descending (backend.js:571); the catch returns empty lists. -/
def fetchYoutubeStreamers (net : FetchOutcome YTData) : YTData :=
  match net with
  | .ok d => ⟨sortByViewersDesc d.live_streams, d.offline_streams⟩
  | .failure _ => ⟨[], []⟩

/-- `fetchTwitchStreamers` (backend.js:595-789): offline streamers sorted by
last stream time (backend.js:767-771); every failure path returns empty
lists. -/
def fetchTwitchStreamers (net : FetchOutcome TwData) : TwData :=
  match net with
  | .ok d => ⟨d.live_streamers, List.insertionSort twitchOfflineLe d.offline_streamers⟩
  | .failure _ => ⟨[], []⟩

/-- `fetchPartiStreamers` (backend.js:795-935): sorted by the parti
comparator (backend.js:919-923); the catch returns `[]`. -/
def fetchPartiStreamers (net : FetchOutcome (List StreamerRec)) : List StreamerRec :=
  match net with
  | .ok results => List.insertionSort partiLe results
  | .failure _ => []

/-- The promise produced by each fetcher, as `fetchAllStreamers` sees it.
Each fetcher wraps its entire body in `try`/`catch` and returns an empty
value from the catch, so the promise ALWAYS fulfills. -/
def fetchKickStreamersE (net : FetchOutcome (List StreamerRec)) :
    Except String (List StreamerRec) :=
  Except.ok (fetchKickStreamers net)

/-- `fetchYoutubeStreamers` as a promise: always fulfills. -/
def fetchYoutubeStreamersE (net : FetchOutcome YTData) : Except String YTData :=
  Except.ok (fetchYoutubeStreamers net)

/-- `fetchTwitchStreamers` as a promise: always fulfills. -/
def fetchTwitchStreamersE (net : FetchOutcome TwData) : Except String TwData :=
  Except.ok (fetchTwitchStreamers net)

/-- `fetchPartiStreamers` as a promise: always fulfills. -/
def fetchPartiStreamersE (net : FetchOutcome (List StreamerRec)) :
    Except String (List StreamerRec) :=
  Except.ok (fetchPartiStreamers net)

/-- One platform slot of `fetchAllStreamers` (backend.js:953-1003):
`.then` stores the fulfilled value; `.catch` falls back to the persisted
data file when it exists, else leaves the initial empty value.  (The
`.catch` branch is reachable only if the fetcher's promise rejects.) -/
def promiseResult {α : Type} (fetched : Except String α) (persisted : Option α) (dflt : α) : α :=
  match fetched with
  | .ok v => v
  | .error _ =>
    match persisted with
    | some p => p
    | none => dflt

/-- The combined refresh result (backend.js:943-948). -/
structure AllResults where
  kick : List StreamerRec
  youtube : YTData
  twitch : TwData
  parti : List StreamerRec
deriving DecidableEq

/-- `fetchAllStreamers` (backend.js:940-1010), all platforms enabled (the
default config).  `persistedX` is the platform's data file when it exists. -/
def fetchAllStreamers (kickNet : FetchOutcome (List StreamerRec)) (ytNet : FetchOutcome YTData)
    (twNet : FetchOutcome TwData) (partiNet : FetchOutcome (List StreamerRec))
    (persistedKick : Option (List StreamerRec)) (persistedYt : Option YTData)
    (persistedTw : Option TwData) (persistedParti : Option (List StreamerRec)) : AllResults :=
  { kick := promiseResult (fetchKickStreamersE kickNet) persistedKick []
    youtube := promiseResult (fetchYoutubeStreamersE ytNet) persistedYt ⟨[], []⟩
    twitch := promiseResult (fetchTwitchStreamersE twNet) persistedTw ⟨[], []⟩
    parti := promiseResult (fetchPartiStreamersE partiNet) persistedParti [] }

/-- All four slots of a refresh result are empty. -/
def resultsAllEmpty (r : AllResults) : Prop :=
  r.kick = [] ∧ r.youtube = ⟨[], []⟩ ∧ r.twitch = ⟨[], []⟩ ∧ r.parti = []

/-- The fetch succeeded (did not throw). -/
def outcomeOk {α : Type} : FetchOutcome α → Prop
  | .ok _ => True
  | .failure _ => False

/-- Claim C3 as stated: a failed platform's slot is filled from the
persisted catalog file when that file exists, and the refresh is not empty
on all platforms when at least one fetch succeeded. -/
def claimC3 : Prop :=
  (∀ kickNet ytNet twNet partiNet persistedYt persistedTw persistedParti
      (msg : String) (p : List StreamerRec),
    kickNet = FetchOutcome.failure msg →
    ∀ r ∈ p, r ∈ (fetchAllStreamers kickNet ytNet twNet partiNet
      (some p) persistedYt persistedTw persistedParti).kick) ∧
  (∀ kickNet ytNet twNet partiNet persistedKick persistedYt persistedTw persistedParti,
    (outcomeOk kickNet ∨ outcomeOk ytNet ∨ outcomeOk twNet ∨ outcomeOk partiNet) →
    ¬ resultsAllEmpty (fetchAllStreamers kickNet ytNet twNet partiNet
      persistedKick persistedYt persistedTw persistedParti))

/-! ## Disk-pressure sweep (backend.js:2710-2770) -/

/-- A finished clip file with its `stats.birthtime` in epoch ms. -/
structure DiskClip where
  file : String
  created : Int
deriving DecidableEq

/-- The clip-age comparator (backend.js:2743): creation time ascending. -/
def clipCreatedLe (a b : DiskClip) : Prop := a.created - b.created ≤ 0

instance : DecidableRel clipCreatedLe :=
  fun a b => inferInstanceAs (Decidable (a.created - b.created ≤ 0))

/-- The clips directory sorted oldest first (backend.js:2732-2743). -/
def clipsByCreated (clips : List DiskClip) : List DiskClip :=
  List.insertionSort clipCreatedLe clips

/-- `Math.ceil(clipFiles.length * 0.1)` (backend.js:2746) under exact
arithmetic.  (IEEE `n * 0.1` can round a hair above the exact product; for
every length arising in practice `Math.ceil` agrees with this value.) -/
def diskDeleteCount (n : Nat) : Nat := (n + 9) / 10

/-- Clips the sweep deletes in one tick (backend.js:2728-2762): when the
usage read at the start of the tick exceeds 90 percent, the first
`diskDeleteCount` of the age-sorted list; otherwise none. -/
def diskPressureDeleted (usagePercent : Int) (clips : List DiskClip) : List DiskClip :=
  if usagePercent > 90 then (clipsByCreated clips).take (diskDeleteCount clips.length)
  else []

/-- Clips that survive one tick of the sweep. -/
def diskPressureSurvivors (usagePercent : Int) (clips : List DiskClip) : List DiskClip :=
  if usagePercent > 90 then (clipsByCreated clips).drop (diskDeleteCount clips.length)
  else clips

/-- Thumbnail path deleted with a clip (backend.js:2750-2751):
`file.replace('.mp4', '')` + `.jpg` (clip ids contain no `.mp4` infix). -/
def thumbnailFileOf (c : DiskClip) : String :=
  String.mk (c.file.toList.take (c.file.toList.length - 4)) ++ ".jpg"

/-- Thumbnails deleted in one tick. -/
def diskPressureDeletedThumbnails (usagePercent : Int) (clips : List DiskClip) : List String :=
  (diskPressureDeleted usagePercent clips).map thumbnailFileOf

/-- Claim C7 as stated: above 90 percent the sweep deletes the oldest clips
and no newer one, and deletion repeats until usage is back under the
threshold. -/
def claimC7 : Prop :=
  (∀ (u : Int) (clips : List DiskClip), u > 90 →
    ∀ d ∈ diskPressureDeleted u clips, ∀ s ∈ diskPressureSurvivors u clips,
      d.created ≤ s.created) ∧
  (∀ (usage : List DiskClip → Int) (clips : List DiskClip),
    usage clips > 90 → usage (diskPressureSurvivors (usage clips) clips) ≤ 90)

/-! ## Concrete fixtures used by counterexamples and witnesses -/

/-- A live kick record with 100 viewers, identity `alpha`. -/
def c2recAlpha : StreamerRec :=
  ⟨"kick", "alpha", "alpha", "live", true, 100, "", none⟩

/-- A live kick record with 100 viewers, identity `bravo`: same sort keys as
`c2recAlpha` on the first three keys, distinct identity. -/
def c2recBravo : StreamerRec :=
  ⟨"kick", "bravo", "bravo", "live", true, 100, "", none⟩

/-- An offline kick record, as persisted in a prior catalog snapshot. -/
def c3kickRec : StreamerRec :=
  ⟨"kick", "gamma", "gamma", "offline", false, 0, "2 hours ago", none⟩

/-- A job sitting in `"captured"` (waiting for the user's clip range). -/
def c4capturedJob : CJob :=
  ⟨"clip_10_aaaaaaaa", "captured", 100, 1, "temp/clip_10_aaaaaaaa_buffer.mp4", none⟩

/-- A job stuck in `"capturing"`. -/
def c4capturingJob : CJob :=
  ⟨"clip_11_bbbbbbbb", "capturing", 40, 1, "temp/clip_11_bbbbbbbb_buffer.mp4", none⟩

/-- A captured job whose buffer a clip is cut from. -/
def c5job : CJob :=
  ⟨"clip_12_cccccccc", "captured", 100, 1, "temp/clip_12_cccccccc_buffer.mp4", none⟩

/-- Two finished clips, the older one created at 3, the newer at 5. -/
def c7clips : List DiskClip :=
  [⟨"clip_newer.mp4", 5⟩, ⟨"clip_older.mp4", 3⟩]

/-! ## Helper lemmas -/

/-- Every transition the code performs is an edge of the §4.8 graph (the
spec graph is a superset of the code graph). -/
theorem codeStep_sub_specStep : ∀ a b : String, codeStep a b → specStep a b := by
  intro a b h
  cases h with
  | captureDone => exact specStep.toCaptured
  | captureFail => exact specStep.toError _ (by simp)
  | clipStart => exact specStep.toProcessing
  | clipInvalid => exact specStep.toError _ (by simp)
  | clipDone => exact specStep.toCompleted
  | clipFail => exact specStep.toError _ (by simp)
  | uploadStart => exact specStep.toUploading
  | uploadDone => exact specStep.toUploaded
  | uploadFail => exact specStep.toError _ (by simp)
  | stallInit => exact specStep.toError _ (by simp)

/-- No code transition ever targets `"resolving"`. -/
theorem codeStep_ne_resolving : ∀ a b : String, codeStep a b → b ≠ "resolving" := by
  intro a b h
  cases h <;> decide

/-- A code chain whose head is not `"resolving"` never visits
`"resolving"`. -/
theorem chain_no_resolving : ∀ tr : List String, tr.Chain' codeStep →
    (∀ s, tr.head? = some s → s ≠ "resolving") → "resolving" ∉ tr := by
  intro tr
  induction tr with
  | nil => intro _ _ h; exact absurd h (List.not_mem_nil _)
  | cons a t ih =>
    intro hch hhd hmem
    rcases List.mem_cons.mp hmem with heq | hmem2
    · exact hhd a rfl heq.symm
    · rcases t with _ | ⟨b, t2⟩
      · exact absurd hmem2 (List.not_mem_nil _)
      · have hstep := (List.chain'_cons.mp hch).1
        have hrest := (List.chain'_cons.mp hch).2
        exact ih hrest (fun s hs => by
          injection hs with e
          exact e ▸ (codeStep_ne_resolving a b hstep)) hmem2

/-! ## Claim C1 -/

/-- C1, counterexample: the single-status trace `["capturing"]` is a valid
observed sequence (`captureStreamSegment` creates its job directly in
`"capturing"`, backend.js:1065-1073), yet it contains `"capturing"` and no
prior `"resolving"`, so the claim as stated is false. -/
theorem C1_counterexample : ¬ claimC1 := by
  intro h
  have h1 := h ["capturing"]
    ⟨by intro s hs; injection hs with e; exact Or.inr e.symm, List.chain'_singleton _⟩
  have h2 := h1.2 (by simp)
  simp at h2

/-- C1 (amended): every observed status sequence of a job is a path along
the §4.8 graph's edges, but it never visits `"resolving"` — jobs are
created directly in `"initializing"` (capture endpoints) or `"capturing"`
(`captureStreamSegment`), so a job that reaches `"capturing"` was never in
`"resolving"`, which does not occur in the code. -/
theorem C1_job_state_graph : ∀ tr : List String, codeTrace tr →
    tr.Chain' specStep ∧ "resolving" ∉ tr := by
  intro tr htr
  refine ⟨List.Chain'.imp codeStep_sub_specStep htr.2, ?_⟩
  refine chain_no_resolving tr htr.2 (fun s hs => ?_)
  rcases htr.1 s hs with h | h <;> subst h <;> decide

/-- C1 witness: the concrete capture-job trace `capturing → captured` is a
path in the spec graph and avoids `"resolving"`. -/
theorem C1_job_state_graph_witness :
    List.Chain' specStep ["capturing", "captured"] ∧
      "resolving" ∉ ["capturing", "captured"] :=
  C1_job_state_graph ["capturing", "captured"]
    ⟨by intro s hs; injection hs with e; exact Or.inr e.symm,
     List.chain'_pair.mpr codeStep.captureDone⟩

/-! ## Claim C4 -/

/-- C4, counterexample: a job in `"captured"` — a non-terminal state — aged
far past 30 minutes is NOT transitioned by the sweep, because
backend.js:2684 only treats `initializing/capturing/processing/uploading`
as active. -/
theorem C4_counterexample : ¬ claimC4 := by
  intro h
  have := h 2000000 c4capturedJob (by decide) (by decide) (by decide) (by decide) (by decide)
  exact absurd this (by decide)

/-- C4 (amended): a job in one of `initializing`, `capturing`,
`processing`, `uploading` whose (nonzero) creation stamp `startTime` — the
code keeps no `updated_at` — is more than 30 minutes before `now` is forced
to `error("Job stalled and timed out")` within one sweep tick; a job in
`"captured"` is never touched by the sweep. -/
theorem C4_stall_sweep : ∀ (now : Int) (j : CJob),
    (j.status ∈ stalledActiveStatuses → j.startTime ≠ 0 →
      now - j.startTime > 30 * 60 * 1000 →
      stalledJobCheck now j =
        { j with status := "error", error := some "Job stalled and timed out" }) ∧
    (j.status = "captured" → stalledJobCheck now j = j) ∧
    (∀ jobs : List CJob, j ∈ jobs → j.status = "capturing" → j.startTime ≠ 0 →
      now - j.startTime > 30 * 60 * 1000 →
      { j with status := "error", error := some "Job stalled and timed out" } ∈
        stalledSweep now jobs) := by
  intro now j
  have hpos : ∀ hmem : j.status ∈ stalledActiveStatuses,
      stalledActiveStatuses.contains j.status = true := by
    intro hmem
    simp [stalledActiveStatuses] at hmem
    rcases hmem with h | h | h | h <;> rw [h] <;> decide
  refine ⟨?_, ?_, ?_⟩
  · intro hmem hne hgt
    unfold stalledJobCheck
    rw [if_pos (hpos hmem), if_pos ⟨hne, hgt⟩]
  · intro hcap
    unfold stalledJobCheck
    rw [if_neg]
    rw [hcap]
    decide
  · intro jobs hj hcap hne hgt
    have heq : stalledJobCheck now j =
        { j with status := "error", error := some "Job stalled and timed out" } := by
      unfold stalledJobCheck
      rw [if_pos (hpos (by rw [hcap]; decide)), if_pos ⟨hne, hgt⟩]
    exact List.mem_map.mpr ⟨j, hj, heq⟩

/-- C4 witness: a `"capturing"` job created at millisecond 1, observed at
millisecond 2000000 (over 33 minutes later), is errored by one sweep
tick. -/
theorem C4_stall_sweep_witness :
    { c4capturingJob with status := "error", error := some "Job stalled and timed out" } ∈
      stalledSweep 2000000 [c4capturingJob] :=
  (C4_stall_sweep 2000000 c4capturingJob).2.2 [c4capturingJob]
    (by decide) (by decide) (by decide) (by decide)

/-! ## Claim C5 -/

/-- C5 (confirmed): on a captured job, `createClip` proceeds to spawn the
transcoder exactly when `0 ≤ start`, `0 < duration` and
`start + duration ≤ maxClipDuration`; each of the three violations is
rejected before any transcoder arguments are built
(backend.js:1299-1310). -/
theorem C5_range_validation :
    ∀ (maxClipDuration startTime duration : Int) (j : CJob), j.status = "captured" →
      ((createClip maxClipDuration (some j) startTime duration).isOk = true ↔
        (0 ≤ startTime ∧ 0 < duration ∧ startTime + duration ≤ maxClipDuration)) := by
  intro m s d j hj
  unfold createClip
  dsimp only
  rw [if_neg (by rw [hj]; decide)]
  split_ifs with h1 h2 h3 <;> simp [Except.isOk, Except.toBool] <;> omega

/-- C5 witness: `start = 10`, `duration = 30` against the default 240-second
maximum passes validation on a captured job. -/
theorem C5_range_validation_witness :
    (createClip 240 (some c5job) 10 30).isOk = true :=
  (C5_range_validation 240 10 30 c5job rfl).mpr (by decide)

/-! ## Claim C6 -/

/-- C6, counterexample: during the direct `writeJsonSync` of the kick
snapshot a reader can observe `"["` — a strict prefix of the new contents
`"[1]"` that is neither the old snapshot `"[]"` nor the new one. -/
theorem C6_counterexample : ¬ claimC6 := by
  intro h
  have hmem : "[" ∈ kickSnapshotObservable "[]" "[1]" := by decide
  rcases (h "[]" "[1]" "[").1 hmem with h1 | h1 <;> exact absurd h1 (by decide)

/-- C6 (amended): each per-platform snapshot is written with a single
`writeJsonSync` directly on the canonical data-file path — no temporary
file, no rename — so a concurrent reader observes either the old contents
or SOME PREFIX of the new contents, and a strictly partial snapshot is
observable. -/
theorem C6_snapshot_write_not_atomic :
    (∀ oldContent newContent obs, obs ∈ kickSnapshotObservable oldContent newContent →
      obs = oldContent ∨ obs.toList <+: newContent.toList) ∧
    (∀ oldContent newContent obs, obs ∈ twitchSnapshotObservable oldContent newContent →
      obs = oldContent ∨ obs.toList <+: newContent.toList) ∧
    ("[" ∈ kickSnapshotObservable "[]" "[1]" ∧ "[" ≠ "[]" ∧ "[" ≠ "[1]") := by
  have hobs : ∀ oldContent newContent obs : String,
      obs ∈ writeJsonSyncObservable oldContent newContent →
      obs = oldContent ∨ obs.toList <+: newContent.toList := by
    intro oldContent newContent obs hmem
    rcases List.mem_cons.mp hmem with h | h
    · exact Or.inl h
    · right
      obtain ⟨k, _, rfl⟩ := List.mem_map.mp h
      exact List.take_prefix k newContent.toList
  exact ⟨hobs, hobs, by decide, by decide, by decide⟩

/-- C6 witness: the partial observation `"["` of the new snapshot `"[1]"`
is a prefix of it. -/
theorem C6_snapshot_write_witness :
    "[" = "[]" ∨ "[".toList <+: "[1]".toList :=
  C6_snapshot_write_not_atomic.1 "[]" "[1]" "[" (by decide)

/-! ## Comparator order lemmas -/

/-- The kick comparator relation is total. -/
theorem kickLe_total : ∀ a b : StreamerRec, kickLe a b ∨ kickLe b a := by
  intro a b
  unfold kickLe kickCmp
  by_cases ha : a.status = "live" <;> by_cases hb : b.status = "live" <;>
    simp [ha, hb] <;>
    first
      | omega
      | (cases hpa : parseLastBroadcastTime a.last_broadcast <;>
         cases hpb : parseLastBroadcastTime b.last_broadcast <;>
         simp [hpa, hpb] <;> omega)

/-- The kick comparator relation is transitive. -/
theorem kickLe_trans : ∀ a b c : StreamerRec, kickLe a b → kickLe b c → kickLe a c := by
  intro a b c h1 h2
  unfold kickLe kickCmp at h1 h2 ⊢
  by_cases ha : a.status = "live" <;> by_cases hb : b.status = "live" <;>
    by_cases hc : c.status = "live" <;>
    simp [ha, hb, hc] at h1 h2 ⊢ <;>
    first
      | omega
      | (cases hpa : parseLastBroadcastTime a.last_broadcast <;>
         cases hpb : parseLastBroadcastTime b.last_broadcast <;>
         cases hpc : parseLastBroadcastTime c.last_broadcast <;>
         simp [hpa, hpb, hpc] at h1 h2 ⊢ <;> omega)

/-- The live-catalog comparator relation is total. -/
theorem liveLe_total : ∀ a b : StreamerRec, liveLe a b ∨ liveLe b a := by
  intro a b
  unfold liveLe liveCmp
  omega

/-- The live-catalog comparator relation is transitive. -/
theorem liveLe_trans : ∀ a b c : StreamerRec, liveLe a b → liveLe b c → liveLe a c := by
  intro a b c h1 h2
  unfold liveLe liveCmp at h1 h2 ⊢
  omega

/-- The clip-age comparator relation is total. -/
theorem clipCreatedLe_total : ∀ a b : DiskClip, clipCreatedLe a b ∨ clipCreatedLe b a := by
  intro a b
  unfold clipCreatedLe
  omega

/-- The clip-age comparator relation is transitive. -/
theorem clipCreatedLe_trans : ∀ a b c : DiskClip,
    clipCreatedLe a b → clipCreatedLe b c → clipCreatedLe a c := by
  intro a b c h1 h2
  unfold clipCreatedLe at h1 h2 ⊢
  omega

/-! ## Claim C2 -/

/-- C2, counterexample: two live records with equal viewer counts but
distinct identities (`alpha`, `bravo`) have distinct four-key sort keys,
yet swapping their input positions swaps the published order — neither
comparator implements the `(platform, platform_id)` tie-break. -/
theorem C2_counterexample : ¬ claimC2 := by
  intro h
  have := h [c2recAlpha, c2recBravo] [c2recBravo, c2recAlpha] (by decide) (by decide)
  exact absurd this.2 (by decide)

/-- C2 (amended): both published orders satisfy only the first three sort
keys — the kick file order is sorted under the kick comparator (live before
not-live, live by viewer count descending, not-live by parsed last
broadcast) and the live catalog is sorted by viewer count descending, each
a permutation of its input; there is no identity tie-break, so records with
equal comparator keys keep their input order (stable sort), and swapping
them swaps the output. -/
theorem C2_sort_three_keys :
    (∀ l, List.Sorted kickLe (kickSortStreamers l) ∧ (kickSortStreamers l).Perm l) ∧
    (∀ l, List.Sorted liveLe (sortByViewersDesc l) ∧ (sortByViewersDesc l).Perm l) ∧
    (sortByViewersDesc [c2recAlpha, c2recBravo] = [c2recAlpha, c2recBravo] ∧
     sortByViewersDesc [c2recBravo, c2recAlpha] = [c2recBravo, c2recAlpha]) := by
  refine ⟨fun l => ⟨?_, List.perm_insertionSort _ _⟩,
          fun l => ⟨?_, List.perm_insertionSort _ _⟩, by decide, by decide⟩
  · exact @List.sorted_insertionSort _ kickLe _ ⟨kickLe_total⟩ ⟨kickLe_trans⟩ l
  · exact @List.sorted_insertionSort _ liveLe _ ⟨liveLe_total⟩ ⟨liveLe_trans⟩ l

/-! ## Claim C3 -/

/-- C3, counterexample: the kick fetch fails while the persisted kick file
holds a record, yet the combined result's kick slot is `[]` — the
persisted-catalog fallback in `fetchAllStreamers` is dead code because
`fetchKickStreamers` absorbs every error and resolves with `[]`. -/
theorem C3_counterexample : ¬ claimC3 := by
  intro h
  have := h.1 (FetchOutcome.failure "network error") (FetchOutcome.ok ⟨[], []⟩)
    (FetchOutcome.ok ⟨[], []⟩) (FetchOutcome.ok []) none none none
    "network error" [c3kickRec] rfl c3kickRec (by decide)
  exact absurd this (by decide)

/-- C3 (amended): a platform whose fetch fails contributes the EMPTY value
to the combined result — not its persisted snapshot, which is consulted
only in the unreachable rejection branch — while a platform whose fetch
succeeds contributes its processed records, so the combined result's kick
slot is nonempty whenever the kick fetch succeeded with nonempty data. -/
theorem C3_failed_platform_empty :
    ∀ (kickNet : FetchOutcome (List StreamerRec)) (ytNet : FetchOutcome YTData)
      (twNet : FetchOutcome TwData) (partiNet : FetchOutcome (List StreamerRec))
      (persistedKick : Option (List StreamerRec)) (persistedYt : Option YTData)
      (persistedTw : Option TwData) (persistedParti : Option (List StreamerRec)),
    (∀ msg, kickNet = FetchOutcome.failure msg →
      (fetchAllStreamers kickNet ytNet twNet partiNet persistedKick persistedYt
        persistedTw persistedParti).kick = []) ∧
    (∀ d, kickNet = FetchOutcome.ok d →
      (fetchAllStreamers kickNet ytNet twNet partiNet persistedKick persistedYt
        persistedTw persistedParti).kick = kickSortStreamers d) ∧
    (∀ d, kickNet = FetchOutcome.ok d → d ≠ [] →
      (fetchAllStreamers kickNet ytNet twNet partiNet persistedKick persistedYt
        persistedTw persistedParti).kick ≠ []) := by
  intro kickNet ytNet twNet partiNet persistedKick persistedYt persistedTw persistedParti
  refine ⟨?_, ?_, ?_⟩
  · intro msg h
    subst h
    rfl
  · intro d h
    subst h
    rfl
  · intro d h hne hempty
    subst h
    have hperm : (List.insertionSort kickLe d).Perm d := List.perm_insertionSort _ _
    have : (List.insertionSort kickLe d) = [] := hempty
    rw [this] at hperm
    exact hne hperm.symm.eq_nil

/-- C3 witness: concrete failed kick fetch with a nonempty persisted file —
the combined kick slot is nevertheless empty. -/
theorem C3_failed_platform_empty_witness :
    (fetchAllStreamers (FetchOutcome.failure "network error") (FetchOutcome.ok ⟨[], []⟩)
      (FetchOutcome.ok ⟨[], []⟩) (FetchOutcome.ok []) (some [c3kickRec]) none none
      none).kick = [] :=
  (C3_failed_platform_empty (FetchOutcome.failure "network error") (FetchOutcome.ok ⟨[], []⟩)
    (FetchOutcome.ok ⟨[], []⟩) (FetchOutcome.ok []) (some [c3kickRec]) none none none).1
    "network error" rfl

/-! ## Claim C7 -/

/-- C7, counterexample: the sweep never re-reads usage after deleting, so
with any disk whose usage stays at 95 percent (pressure from data other
than clips), one tick leaves usage above the threshold and performs no
further deletion — deletion does not repeat until usage is back under the
threshold. -/
theorem C7_counterexample : ¬ claimC7 := by
  intro h
  have := h.2 (fun _ => 95) c7clips (by decide)
  exact absurd this (by decide)

/-- C7 (amended): when the usage read at the start of the tick exceeds 90
percent, the sweep deletes exactly the `ceil(n/10)` oldest-by-creation clip
files — every deleted clip is no newer than every survivor, and deleted
plus survivors is the whole directory — and then stops for that tick
regardless of the resulting usage; at or below 90 percent nothing is
deleted. -/
theorem C7_disk_sweep_one_pass :
    ∀ (u : Int) (clips : List DiskClip),
    (u > 90 →
      (diskPressureDeleted u clips).length = min (diskDeleteCount clips.length) clips.length ∧
      (∀ d ∈ diskPressureDeleted u clips, ∀ s2 ∈ diskPressureSurvivors u clips,
        d.created ≤ s2.created) ∧
      (diskPressureDeleted u clips ++ diskPressureSurvivors u clips).Perm clips) ∧
    (¬ u > 90 →
      diskPressureDeleted u clips = [] ∧ diskPressureSurvivors u clips = clips) := by
  intro u clips
  constructor
  · intro hu
    have hsorted : List.Sorted clipCreatedLe (clipsByCreated clips) :=
      @List.sorted_insertionSort _ clipCreatedLe _ ⟨clipCreatedLe_total⟩
        ⟨clipCreatedLe_trans⟩ clips
    have hperm : (clipsByCreated clips).Perm clips := List.perm_insertionSort _ _
    have hsplit : (clipsByCreated clips).take (diskDeleteCount clips.length) ++
        (clipsByCreated clips).drop (diskDeleteCount clips.length) = clipsByCreated clips :=
      List.take_append_drop _ _
    unfold diskPressureDeleted diskPressureSurvivors
    simp only [if_pos hu]
    refine ⟨?_, ?_, ?_⟩
    · rw [List.length_take, hperm.length_eq]
    · intro d hd s2 hs2
      have hpw : List.Pairwise clipCreatedLe (clipsByCreated clips) := hsorted
      rw [← hsplit] at hpw
      have := (List.pairwise_append.mp hpw).2.2 d hd s2 hs2
      unfold clipCreatedLe at this
      omega
    · rw [hsplit]
      exact hperm
  · intro hu
    unfold diskPressureDeleted diskPressureSurvivors
    simp [hu]

/-- C7 witness: at 95 percent usage over the two-clip directory, exactly
`ceil(2/10) = 1` clip is deleted. -/
theorem C7_disk_sweep_witness :
    (diskPressureDeleted 95 c7clips).length =
      min (diskDeleteCount c7clips.length) c7clips.length :=
  ((C7_disk_sweep_one_pass 95 c7clips).1 (by decide)).1

/-! ## Claim C8 -/

/-- C8, counterexample: on input `"kappa"` the code's parser returns `NaN`
(the text contains `k`, the remainder `"appa"` does not parse, and
`Math.floor(NaN * 1000)` is `NaN`), while the spec algorithm — no `k`
suffix, integer parse fails, failure yields 0 — returns `0`. -/
theorem C8_counterexample : ¬ claimC8 := by
  intro h
  exact absurd (h.2.2.2.2.2 "kappa") (by decide)

/-- C8 (amended): the five reference vectors hold, but the `k`/`m`
multiplier branch fires on a `k`/`m` anywhere in the normalized text (not
only as a suffix), and a parse failure inside that branch yields `NaN`
rather than `0` — only the plain-integer branch maps failure to `0`. -/
theorem C8_viewer_count_semantics :
    parseViewerCount "1,234" = some 1234 ∧
    parseViewerCount "1.2k" = some 1200 ∧
    parseViewerCount "3m" = some 3000000 ∧
    parseViewerCount "" = some 0 ∧
    parseViewerCount "abc" = some 0 ∧
    (∀ t : String, t ≠ "" → (viewerTextNormalize t).contains 'k' = true →
      jsParseFloatDec (removeFirstChar (viewerTextNormalize t) 'k') = none →
      parseViewerCount t = none) := by
  refine ⟨by decide, by decide, by decide, by decide, by decide, ?_⟩
  intro t ht hk hp
  unfold parseViewerCount
  rw [if_neg ht]
  simp at hk
  simp [hk, hp]

/-- C8 witness: the `NaN` branch is realized at the concrete input
`"kappa"`. -/
theorem C8_viewer_count_semantics_witness : parseViewerCount "kappa" = none :=
  C8_viewer_count_semantics.2.2.2.2.2 "kappa" (by decide) (by decide) (by decide)

/-! ## Claim C9 -/

/-- C9 (confirmed): for `1 ≤ numFrames ≤ maxClipDuration` the sampling
denominator `floor(maxClipDuration / numFrames)` is positive, but any
`numFrames > maxClipDuration` — e.g. 241 against the default 240 — makes it
0, and the transcoder is invoked with the malformed filter `fps=1/0`. -/
theorem C9_preview_fps_zero_denominator :
    (∀ maxClipDuration numFrames : Nat, 1 ≤ numFrames → numFrames ≤ maxClipDuration →
      0 < previewFpsDenom maxClipDuration numFrames) ∧
    (∀ maxClipDuration numFrames : Nat, maxClipDuration < numFrames →
      previewFpsDenom maxClipDuration numFrames = 0) ∧
    (previewFfmpegArgs "temp/buffer.mp4" "temp/preview/frame_%04d.jpg" 240 241)[6]? =
      some "fps=1/0" := by
  refine ⟨?_, ?_, by decide⟩
  · intro m n h1 h2
    exact Nat.div_pos h2 h1
  · intro m n h
    exact Nat.div_eq_of_lt h

/-- C9 witness: the denominator is positive at the largest valid frame
count and zero just past it. -/
theorem C9_preview_fps_witness :
    0 < previewFpsDenom 240 240 ∧ previewFpsDenom 240 241 = 0 :=
  ⟨C9_preview_fps_zero_denominator.1 240 240 (by decide) (by decide),
   C9_preview_fps_zero_denominator.2.1 240 241 (by decide)⟩

/-! ## Claim C10 -/

/-- C10 (confirmed): `POST /api/capture` computes the effective duration as
`min(maxDuration || max, max)` with no validation — `maxDuration = 0` (like
a missing field) silently selects the full configured maximum, and a
negative `maxDuration` passes through unchanged into the transcoder's `-t`
argument. -/
theorem C10_capture_duration_forwarded :
    (∀ maxClip : Int, captureClipDuration (some 0) maxClip = maxClip) ∧
    (∀ maxClip : Int, captureClipDuration none maxClip = maxClip) ∧
    (∀ d maxClip : Int, d < 0 → 0 ≤ maxClip → captureClipDuration (some d) maxClip = d) ∧
    (captureFfmpegArgs "https://example.com/live.m3u8" "temp/clip_buffer.mp4"
      (captureClipDuration (some (-5)) 240))[6]? = some "-5" := by
  refine ⟨?_, ?_, ?_, by decide⟩
  · intro m
    simp [captureClipDuration, jsOrInt]
  · intro m
    simp [captureClipDuration, jsOrInt]
  · intro d m hd hm
    unfold captureClipDuration jsOrInt
    dsimp only
    rw [if_neg (show ¬ d = 0 by omega)]
    omega

/-- C10 witness: a request with `maxDuration = -5` against the default
240-second cap yields an effective capture duration of `-5`. -/
theorem C10_capture_duration_witness : captureClipDuration (some (-5)) 240 = -5 :=
  C10_capture_duration_forwarded.2.2.1 (-5) 240 (by decide) (by decide)

end Clipper
